import Mathlib

/-!
Verification of the `errors` Go package (errors with stacktraces).

The package is embedded shallowly: a Go `error` interface value becomes the
inductive type `GoErr` below, and every package-level function
(`StripPath`, `New`, `Propagate`, `Create`, `Cause`, `Unwrap`, `Is`, `As`,
`formatFull`, `formatShort`) becomes a Lean function translated from
`errors.go`.  Ambient inputs of the Go code are passed explicitly:

* the `GOPATH` entries read by `StripPath` become a `List String` argument;
* the result of `runtime.Caller(2)` / `runtime.FuncForPC` in `Create`
  becomes an `Option Frame` argument (`none` = capture failed);
* the fresh `*Error` pointer becomes a natural-number allocation id, so
  structural equality on `GoErr` models Go interface equality `==`
  (distinct allocations carry distinct ids);
* `fmt.Sprintf(format, args...)` in `Create` becomes the already-formatted
  message string.

Go slices strings by bytes; all paths and names treated here are ASCII, so
character counts and byte counts agree.
-/

namespace GoErrors

/-- A Go `error` interface value as this package sees it.  `nilErr` is the
nil interface value; `lib` is a `*Error` record with fields `Message`,
`Cause`, `File`, `Function`, `Line` plus the allocation id standing for the
pointer; `foreign` is any non-library error value, with its dynamic type
tag `ty`, its `Error()` text, and `uw`, the result of asking it to unwrap
one level (`nilErr` when it has no `Unwrap() error` method or that method
returns nil).  No modelled error carries a custom `Is`/`As` method and
every modelled dynamic type is comparable. -/
inductive GoErr : Type where
  | nilErr : GoErr
  | lib (id : Nat) (message : String) (cause : GoErr) (file : String)
      (function : String) (line : Nat) : GoErr
  | foreign (id : Nat) (ty : Nat) (text : String) (uw : GoErr) : GoErr
deriving DecidableEq, Repr

/-- Whether an error value is this library's record type `*Error`. -/
def isLib : GoErr → Bool
  | .lib _ _ _ _ _ _ => true
  | _ => false

/-- The `Cause` field of a library record (`nilErr` on anything else). -/
def causeOf : GoErr → GoErr
  | .lib _ _ c _ _ _ => c
  | _ => .nilErr

/-- The `Message` field of a library record (empty on anything else). -/
def messageOf : GoErr → String
  | .lib _ m _ _ _ _ => m
  | _ => ""

/-- The `File` field of a library record. -/
def fileOf : GoErr → String
  | .lib _ _ _ f _ _ => f
  | _ => ""

/-- The `Function` field of a library record. -/
def functionOf : GoErr → String
  | .lib _ _ _ _ fn _ => fn
  | _ => ""

/-! ## StripPath -/

/-- `filepath.Join(dir, "src")` followed by the appended path separator,
for a clean `dir` with no trailing separator: one more path segment. -/
def srcRoot (dir : String) : String := dir ++ "/src" ++ "/"

/-- Stable insertion of `a` into a length-sorted list: `a` goes before `b`
only when strictly longer, so entries of equal length keep their original
relative order. -/
def insertByLen (a : String) : List String → List String
  | [] => [a]
  | b :: bs => if b.length < a.length then a :: b :: bs else b :: insertByLen a bs

/-- `sort.SliceStable(dirs, ...)` with `len(dirs[i]) > len(dirs[j])` as the
less-than: a stable sort putting longer entries first (realized as a stable
insertion sort, which produces the same list as any stable sort). -/
def sortDirs (dirs : List String) : List String :=
  dirs.foldr insertByLen []

/-- The loop of `StripPath`, over the sorted `GOPATH` entries.  The code
tests `strings.HasPrefix(p, src+src)` — the root concatenated with itself —
and on a hit returns `p[len(src)+1:]` (byte slicing = character slicing on
the ASCII paths considered here). -/
def stripPathLoop : List String → String → String
  | [], p => p
  | dir :: rest, p =>
      if ((srcRoot dir) ++ (srcRoot dir)).data.isPrefixOf p.data then
        ⟨p.data.drop ((srcRoot dir).length + 1)⟩
      else stripPathLoop rest p

/-- `StripPath`, with `filepath.SplitList(os.Getenv("GOPATH"))` passed
explicitly as `dirs`. -/
def stripPath (dirs : List String) (p : String) : String :=
  stripPathLoop (sortDirs dirs) p

/-! ## Function-name simplification in Create -/

/-- `funcName[strings.LastIndex(funcName, "/")+1:]`: the suffix after the
last `/`, or the whole string when there is none. -/
def dropThroughLastSlash (cs : List Char) : List Char :=
  (cs.reverse.takeWhile (· ≠ '/')).reverse

/-- The suffix after the first occurrence of `c`, if `c` occurs. -/
def afterFirst (c : Char) : List Char → Option (List Char)
  | [] => none
  | x :: xs => if x = c then some xs else afterFirst c xs

/-- `funcName[strings.Index(funcName, ".")+1:]` generalized to any
character: everything after the first occurrence, or the whole string when
there is none (`Index` returns `-1`, so slicing starts at `0`). -/
def dropThroughFirst (c : Char) (cs : List Char) : List Char :=
  (afterFirst c cs).getD cs

/-- `strings.Replace(s, string(c), "", 1)`: delete the first occurrence. -/
def removeFirst (c : Char) : List Char → List Char
  | [] => []
  | x :: xs => if x = c then xs else x :: removeFirst c xs

/-- The function-name simplification applied in `Create`: cut after the
last `/`, then after the first `.`, then delete the first `(`, `*`, `)`. -/
def simplifyFuncName (s : String) : String :=
  ⟨removeFirst ')' (removeFirst '*' (removeFirst '('
    (dropThroughFirst '.' (dropThroughLastSlash s.data))))⟩

/-! ## Constructors -/

/-- The result of `runtime.Caller(2)` plus `runtime.FuncForPC`: the
captured file and line, and the qualified function name when `FuncForPC`
is non-nil. -/
structure Frame where
  file : String
  line : Nat
  fnName : Option String
deriving DecidableEq, Repr

/-- `Create`: build the record with the formatted message and the cause;
when the frame is available fill `File` (through `StripPath`) and `Line`,
and when the function resolves fill the simplified `Function`. -/
def Create (id : Nat) (dirs : List String) (frame : Option Frame)
    (cause : GoErr) (message : String) : GoErr :=
  match frame with
  | none => .lib id message cause "" "" 0
  | some fr =>
      match fr.fnName with
      | none => .lib id message cause (stripPath dirs fr.file) "" fr.line
      | some fn =>
          .lib id message cause (stripPath dirs fr.file)
            (simplifyFuncName fn) fr.line

/-- `New`: a root record with no cause. -/
def New (id : Nat) (dirs : List String) (frame : Option Frame)
    (message : String) : GoErr :=
  Create id dirs frame .nilErr message

/-- `Propagate`: nil cause short-circuits to nil, otherwise `Create`. -/
def Propagate (id : Nat) (dirs : List String) (frame : Option Frame)
    (cause : GoErr) (message : String) : GoErr :=
  if cause = .nilErr then .nilErr else Create id dirs frame cause message

/-! ## Chain walkers -/

/-- `Unwrap`: a library record yields its cause when non-nil (a `*Error`
has no `Unwrap() error` method of its own, so a nil cause falls through to
nil); a foreign error yields the result of its own unwrap capability;
the nil error yields nil. -/
def goUnwrap : GoErr → GoErr
  | .lib _ _ c _ _ _ => if c = .nilErr then .nilErr else c
  | .foreign _ _ _ u => u
  | .nilErr => .nilErr

/-- `Cause`: recursively follow the causes of library records; stop at a
non-library value or at a record whose cause is nil. -/
def goCause : GoErr → GoErr
  | .lib id m c f fn l => if c = .nilErr then .lib id m c f fn l else goCause c
  | e => e

/-- The loop of `Is` for a non-nil target: test `err == target` (every
modelled type is comparable, and no modelled error has a custom
`Is(error) bool` method), then step `err = Unwrap(err)` and fail when it
yields nil. -/
def isLoop : GoErr → GoErr → Bool
  | .nilErr, _ => false
  | .lib id m c f fn l, target =>
      if GoErr.lib id m c f fn l = target then true
      else if c = .nilErr then false else isLoop c target
  | .foreign id ty t u, target =>
      if GoErr.foreign id ty t u = target then true
      else if u = .nilErr then false else isLoop u target

/-- `Is`: a nil target matches exactly the nil error, otherwise walk. -/
def goIs (err target : GoErr) : Bool :=
  if target = .nilErr then err == .nilErr else isLoop err target

/-- The unwrap chain of an error: the error itself, then the result of
each further `Unwrap`, ending before `Unwrap` yields nil. -/
def unwrapChain : GoErr → List GoErr
  | .nilErr => [.nilErr]
  | .lib id m c f fn l =>
      GoErr.lib id m c f fn l :: (if c = .nilErr then [] else unwrapChain c)
  | .foreign id ty t u =>
      GoErr.foreign id ty t u :: (if u = .nilErr then [] else unwrapChain u)

/-- The chain `Cause` walks: follow the cause of each library record,
stopping at a non-library value or at a nil cause. -/
def libChain : GoErr → List GoErr
  | .lib id m c f fn l =>
      GoErr.lib id m c f fn l :: (if c = .nilErr then [] else libChain c)
  | e => [e]

/-! ## Helper lemmas about the constructors -/

theorem Create_ne_nilErr (id : Nat) (dirs : List String) (frame : Option Frame)
    (cause : GoErr) (message : String) :
    Create id dirs frame cause message ≠ .nilErr := by
  cases frame with
  | none => simp [Create]
  | some fr => cases h : fr.fnName <;> simp [Create, h]

theorem isLib_Create (id : Nat) (dirs : List String) (frame : Option Frame)
    (cause : GoErr) (message : String) :
    isLib (Create id dirs frame cause message) = true := by
  cases frame with
  | none => simp [Create, isLib]
  | some fr => cases h : fr.fnName <;> simp [Create, h, isLib]

theorem causeOf_Create (id : Nat) (dirs : List String) (frame : Option Frame)
    (cause : GoErr) (message : String) :
    causeOf (Create id dirs frame cause message) = cause := by
  cases frame with
  | none => simp [Create, causeOf]
  | some fr => cases h : fr.fnName <;> simp [Create, h, causeOf]

theorem messageOf_Create (id : Nat) (dirs : List String) (frame : Option Frame)
    (cause : GoErr) (message : String) :
    messageOf (Create id dirs frame cause message) = message := by
  cases frame with
  | none => simp [Create, messageOf]
  | some fr => cases h : fr.fnName <;> simp [Create, h, messageOf]

theorem goUnwrap_Create (id : Nat) (dirs : List String) (frame : Option Frame)
    (cause : GoErr) (message : String) (h : cause ≠ .nilErr) :
    goUnwrap (Create id dirs frame cause message) = cause := by
  cases frame with
  | none => simp [Create, goUnwrap, h]
  | some fr => cases hf : fr.fnName <;> simp [Create, hf, goUnwrap, h]

theorem goCause_Create_of_cause_lib (id : Nat) (dirs : List String)
    (frame : Option Frame) (cause : GoErr) (message : String)
    (h : cause ≠ .nilErr) :
    goCause (Create id dirs frame cause message) = goCause cause := by
  cases frame with
  | none => simp [Create, goCause, h]
  | some fr => cases hf : fr.fnName <;> simp [Create, hf, goCause, h]

theorem libChain_getLastD (e : GoErr) : ∀ d : GoErr,
    (libChain e).getLastD d = goCause e := by
  induction e with
  | nilErr => intro d; simp [libChain, goCause]
  | foreign id ty t u ihu => intro d; simp [libChain, goCause]
  | lib id m c f fn l ihc =>
      intro d
      by_cases hc : c = GoErr.nilErr
      · simp [libChain, goCause, hc]
      · simp only [libChain, goCause, hc, if_neg, ite_false, List.getLastD_cons]
        exact ihc _

/-! ## Claim C1 (StripPath) -/

/-- C1: the claim says a captured path `R/sub/file.go` with `R` a
configured root (a `GOPATH` entry plus `src` plus the separator) is
returned as `sub/file.go`.  The code instead tests for the root repeated
twice (`HasPrefix(p, src+src)`) and strips one character too many
(`p[len(src)+1:]`): with the entry `/go`, the path
`/go/src/sub/file.go` passes through unchanged, and even a path that does
start with the doubled root is mangled rather than stripped. -/
theorem stripPath_double_root_bug :
    stripPath ["/go"] "/go/src/sub/file.go" = "/go/src/sub/file.go" ∧
    stripPath ["/go"] "/go/src//go/src/sub/file.go" = "go/src/sub/file.go" := by
  constructor <;> decide

/-! ## Claim C3 (Propagate / Unwrap round trip) -/

/-- C3: `Propagate(nil, msg)` is nil, and for every non-nil cause the
result is a non-nil library record whose message is the formatted message
and whose `Unwrap` is the cause. -/
theorem propagate_roundtrip (id : Nat) (dirs : List String)
    (frame : Option Frame) (cause : GoErr) (msg : String) :
    Propagate id dirs frame GoErr.nilErr msg = GoErr.nilErr ∧
    (cause ≠ GoErr.nilErr →
      Propagate id dirs frame cause msg ≠ GoErr.nilErr ∧
      isLib (Propagate id dirs frame cause msg) = true ∧
      messageOf (Propagate id dirs frame cause msg) = msg ∧
      goUnwrap (Propagate id dirs frame cause msg) = cause) := by
  refine ⟨by simp [Propagate], fun h => ?_⟩
  simp only [Propagate, if_neg h]
  exact ⟨Create_ne_nilErr id dirs frame cause msg,
    isLib_Create id dirs frame cause msg,
    messageOf_Create id dirs frame cause msg,
    goUnwrap_Create id dirs frame cause msg h⟩

/-- Witness for C3 at a concrete chain. -/
theorem propagate_roundtrip_witness :
    Propagate 1 [] none GoErr.nilErr "b" = GoErr.nilErr ∧
    goUnwrap (Propagate 1 [] none (New 0 [] none "a") "b") = New 0 [] none "a" :=
  ⟨(propagate_roundtrip 1 [] none (New 0 [] none "a") "b").1,
   ((propagate_roundtrip 1 [] none (New 0 [] none "a") "b").2 (by decide)).2.2.2⟩

/-! ## Claim C5 (Cause) -/

/-- C5: `Cause` follows only library-record causes and returns the deepest
link — the last element of that chain; the result is never a library
record with a non-nil cause; a non-library error is returned unchanged;
and on `Propagate(Propagate(New "a", "b"), "c")` it returns the original
`New "a"` record. -/
theorem cause_deepest (e : GoErr) (id1 id2 id3 : Nat) (dirs : List String)
    (f1 f2 f3 : Option Frame) :
    goCause e = (libChain e).getLastD GoErr.nilErr ∧
    (isLib (goCause e) = true → causeOf (goCause e) = GoErr.nilErr) ∧
    (isLib e = false → goCause e = e) ∧
    goCause (Propagate id3 dirs f3
        (Propagate id2 dirs f2 (New id1 dirs f1 "a") "b") "c")
      = New id1 dirs f1 "a" := by
  refine ⟨(libChain_getLastD e _).symm, ?_, ?_, ?_⟩
  · induction e with
    | nilErr => intro h; simp [goCause, isLib] at h
    | foreign id ty t u ihu => intro h; simp [goCause, isLib] at h
    | lib id m c f fn l ihc =>
        intro h
        by_cases hc : c = GoErr.nilErr
        · simp [goCause, hc, causeOf]
        · rw [show goCause (GoErr.lib id m c f fn l) = goCause c from by
            simp [goCause, hc]] at h ⊢
          exact ihc h
  · cases e <;> simp [goCause, isLib]
  · have h1 : New id1 dirs f1 "a" ≠ GoErr.nilErr := Create_ne_nilErr _ _ _ _ _
    have h2 : Create id2 dirs f2 (New id1 dirs f1 "a") "b" ≠ GoErr.nilErr :=
      Create_ne_nilErr _ _ _ _ _
    have hp2 : Propagate id2 dirs f2 (New id1 dirs f1 "a") "b"
        = Create id2 dirs f2 (New id1 dirs f1 "a") "b" := by
      simp [Propagate, h1]
    have hp3 : Propagate id3 dirs f3
          (Propagate id2 dirs f2 (New id1 dirs f1 "a") "b") "c"
        = Create id3 dirs f3 (Create id2 dirs f2 (New id1 dirs f1 "a") "b") "c" := by
      rw [hp2]; simp [Propagate, h2]
    rw [hp3, goCause_Create_of_cause_lib _ _ _ _ _ h2,
      goCause_Create_of_cause_lib _ _ _ _ _ h1]
    cases f1 with
    | none => simp [New, Create, goCause]
    | some fr => cases hf : fr.fnName <;> simp [New, Create, hf, goCause]

/-- Witness for C5 at concrete errors. -/
theorem cause_deepest_witness :
    causeOf (goCause (GoErr.lib 0 "a" GoErr.nilErr "" "" 0)) = GoErr.nilErr ∧
    goCause (GoErr.foreign 5 1 "boom" GoErr.nilErr)
      = GoErr.foreign 5 1 "boom" GoErr.nilErr ∧
    goCause (Propagate 3 [] none (Propagate 2 [] none (New 1 [] none "a") "b") "c")
      = New 1 [] none "a" :=
  ⟨(cause_deepest (GoErr.lib 0 "a" GoErr.nilErr "" "" 0) 1 2 3 [] none none none).2.1
      (by decide),
   (cause_deepest (GoErr.foreign 5 1 "boom" GoErr.nilErr) 1 2 3 [] none none none).2.2.1
      (by decide),
   (cause_deepest (GoErr.lib 0 "a" GoErr.nilErr "" "" 0) 1 2 3 [] none none none).2.2.2⟩

/-! ## Claim C8 (Is with nil target) -/

/-- C8: `Is(nil, nil)` is true, and `Is(x, nil)` is false for every
non-nil `x`: a nil target matches only a nil error. -/
theorem is_nil_target (x : GoErr) (h : x ≠ GoErr.nilErr) :
    goIs GoErr.nilErr GoErr.nilErr = true ∧ goIs x GoErr.nilErr = false := by
  refine ⟨rfl, ?_⟩
  simp [goIs, h]

/-- Witness for C8 at a concrete non-nil error. -/
theorem is_nil_target_witness :
    goIs GoErr.nilErr GoErr.nilErr = true ∧
    goIs (New 0 [] none "a") GoErr.nilErr = false :=
  ⟨(is_nil_target (New 0 [] none "a") (by decide)).1,
   (is_nil_target (New 0 [] none "a") (by decide)).2⟩

/-! ## Claim C4 (Is walks the unwrap chain) -/

/-- C4: for every error and every non-nil target, `Is(err, target)` is
true exactly when the target appears in the unwrap chain of `err` — the
sequence starting at `err` and stepping through `Unwrap` until it yields
nil. -/
theorem is_iff_mem_unwrapChain (err target : GoErr)
    (h : target ≠ GoErr.nilErr) :
    (goIs err target = true ↔ target ∈ unwrapChain err) := by
  simp only [goIs, if_neg h]
  induction err with
  | nilErr => simp [isLoop, unwrapChain, h]
  | lib id m c f fn l ihc =>
      by_cases h1 : GoErr.lib id m c f fn l = target
      · subst h1; simp [isLoop, unwrapChain]
      · by_cases h2 : c = GoErr.nilErr
        · subst h2
          simp only [isLoop, unwrapChain, if_neg h1]
          simp [Ne.symm h1]
        · simp [isLoop, unwrapChain, h1, h2, Ne.symm h1, ihc]
  | foreign id ty t u ihu =>
      by_cases h1 : GoErr.foreign id ty t u = target
      · subst h1; simp [isLoop, unwrapChain]
      · by_cases h2 : u = GoErr.nilErr
        · subst h2
          simp only [isLoop, unwrapChain, if_neg h1]
          simp [Ne.symm h1]
        · simp [isLoop, unwrapChain, h1, h2, Ne.symm h1, ihu]

/-- Witness for C4: the root record is found through one unwrap step, in
both directions of the equivalence. -/
theorem is_iff_mem_unwrapChain_witness :
    goIs (Propagate 1 [] none (New 0 [] none "a") "b") (New 0 [] none "a") = true :=
  (is_iff_mem_unwrapChain (Propagate 1 [] none (New 0 [] none "a") "b")
    (New 0 [] none "a") (by decide)).2 (by decide)

/-! ## As -/

/-- The dynamic type of a non-nil error value: the library's `*Error`
pointer type, or a foreign type tag. -/
inductive GoType : Type where
  | libPtr : GoType
  | fTy (n : Nat) : GoType
deriving DecidableEq, Repr

/-- The pointee type of a valid (non-nil pointer) `As` target: an
interface type with its implementation predicate over dynamic types, or a
concrete type together with whether it implements the `error` interface. -/
inductive Pointee : Type where
  | iface (impl : GoType → Bool) : Pointee
  | concrete (t : GoType) (implementsError : Bool) : Pointee

/-- `reflect.TypeOf(err).AssignableTo(targetType)` for a non-nil error of
dynamic type `t`: implementation for an interface pointee, type identity
for a concrete pointee. -/
def assignableTo (t : GoType) : Pointee → Bool
  | .iface impl => impl t
  | .concrete ct _ => t == ct

/-- The walk of `As` over the chain: test assignability of each non-nil
link (no modelled error carries a custom `As(interface{}) bool` method),
then step through `Unwrap`; the recursion on the cause field also covers
`Unwrap` yielding nil, since the walk returns false on the nil error. -/
def asLoop : GoErr → Pointee → Bool
  | .nilErr, _ => false
  | .lib _ _ c _ _ _, p => assignableTo .libPtr p || asLoop c p
  | .foreign _ ty _ u, p => assignableTo (.fTy ty) p || asLoop u p

/-- The `target interface{}` argument of `As` as `reflect` sees it: the
nil interface, a non-pointer value, a nil pointer, or a non-nil pointer
with its pointee type. -/
inductive AsArg : Type where
  | nilArg : AsArg
  | nonPtr : AsArg
  | nilPtr : AsArg
  | ptr (p : Pointee) : AsArg

/-- `As`: reject a nil target, a non-pointer, a nil pointer, and a pointee
type that is neither an interface nor an implementation of `error`; then
walk the chain. -/
def goAs (err : GoErr) (t : AsArg) : Bool :=
  match t with
  | .nilArg => false
  | .nonPtr => false
  | .nilPtr => false
  | .ptr p =>
      match p with
      | .concrete _ false => false
      | p => asLoop err p

/-! ## Claim C7 (As rejects invalid targets) -/

/-- C7: for every error, `As` returns false — without any walking or
panic — when the target is nil, not a pointer, a nil pointer, or a pointer
to a type that is neither an interface nor an implementation of the error
contract. -/
theorem as_invalid_target (err : GoErr) (t : GoType) :
    goAs err AsArg.nilArg = false ∧
    goAs err AsArg.nonPtr = false ∧
    goAs err AsArg.nilPtr = false ∧
    goAs err (AsArg.ptr (Pointee.concrete t false)) = false :=
  ⟨rfl, rfl, rfl, rfl⟩

/-! ## Claim C9 (function-name simplification) -/

theorem takeWhile_append_stop {p : Char → Bool} (l₁ : List Char) (a : Char)
    (l₂ : List Char) (h₁ : ∀ x ∈ l₁, p x = true) (h₂ : p a = false) :
    (l₁ ++ a :: l₂).takeWhile p = l₁ := by
  induction l₁ with
  | nil => simp [List.takeWhile_cons, h₂]
  | cons x xs ih =>
      have hx : p x = true := h₁ x (List.mem_cons_self x xs)
      simp only [List.cons_append, List.takeWhile_cons, hx, if_true]
      rw [ih (fun y hy => h₁ y (List.mem_cons_of_mem x hy))]

theorem dropThroughLastSlash_append (xs ys : List Char) (h : '/' ∉ ys) :
    dropThroughLastSlash (xs ++ '/' :: ys) = ys := by
  unfold dropThroughLastSlash
  rw [List.reverse_append]
  have : (('/' :: ys).reverse ++ xs.reverse) = ys.reverse ++ '/' :: xs.reverse := by
    simp
  rw [this, takeWhile_append_stop _ '/' _ ?h1 ?h2, List.reverse_reverse]
  case h1 =>
    intro x hx
    have : x ∈ ys := List.mem_reverse.mp hx
    simp only [decide_eq_true_eq]
    intro hc; exact h (hc ▸ this)
  case h2 => simp

theorem dropThroughLastSlash_no_slash (ys : List Char) (h : '/' ∉ ys) :
    dropThroughLastSlash ys = ys := by
  unfold dropThroughLastSlash
  rw [List.takeWhile_eq_self_iff.mpr, List.reverse_reverse]
  intro x hx
  have : x ∈ ys := List.mem_reverse.mp hx
  simp only [decide_eq_true_eq]
  intro hc; exact h (hc ▸ this)

theorem afterFirst_append (l₁ : List Char) (c : Char) (l₂ : List Char)
    (h : c ∉ l₁) : afterFirst c (l₁ ++ c :: l₂) = some l₂ := by
  induction l₁ with
  | nil => simp [afterFirst]
  | cons x xs ih =>
      have hx : x ≠ c := fun hc => h (hc ▸ List.mem_cons_self x xs)
      simp only [List.cons_append, afterFirst, if_neg hx]
      exact ih (fun hc => h (List.mem_cons_of_mem x hc))

theorem dropThroughFirst_append (l₁ : List Char) (c : Char) (l₂ : List Char)
    (h : c ∉ l₁) : dropThroughFirst c (l₁ ++ c :: l₂) = l₂ := by
  unfold dropThroughFirst
  rw [afterFirst_append l₁ c l₂ h]
  rfl

theorem removeFirst_of_not_mem (c : Char) (l : List Char) (h : c ∉ l) :
    removeFirst c l = l := by
  induction l with
  | nil => rfl
  | cons x xs ih =>
      have hx : x ≠ c := fun hc => h (hc ▸ List.mem_cons_self x xs)
      simp only [removeFirst, if_neg hx]
      rw [ih (fun hc => h (List.mem_cons_of_mem x hc))]

theorem removeFirst_cons_self (c : Char) (l : List Char) :
    removeFirst c (c :: l) = l := by
  simp [removeFirst]

theorem removeFirst_append_of_not_mem (c : Char) (l₁ l₂ : List Char)
    (h : c ∉ l₁) : removeFirst c (l₁ ++ c :: l₂) = l₁ ++ l₂ := by
  induction l₁ with
  | nil => simp [removeFirst]
  | cons x xs ih =>
      have hx : x ≠ c := fun hc => h (hc ▸ List.mem_cons_self x xs)
      simp only [List.cons_append, removeFirst, if_neg hx, List.append_eq]
      rw [ih (fun hc => h (List.mem_cons_of_mem x hc))]

theorem simplifyFuncName_spec (path pkg fname recv mname : String)
    (hpkg_slash : '/' ∉ pkg.data) (hpkg_dot : '.' ∉ pkg.data)
    (hf_slash : '/' ∉ fname.data) (hf_lp : '(' ∉ fname.data)
    (hf_star : '*' ∉ fname.data) (hf_rp : ')' ∉ fname.data)
    (hr_slash : '/' ∉ recv.data) (hr_rp : ')' ∉ recv.data)
    (hm_slash : '/' ∉ mname.data) :
    simplifyFuncName (path ++ "/" ++ pkg ++ "." ++ fname) = fname ∧
    simplifyFuncName (path ++ "/" ++ pkg ++ ".(*" ++ recv ++ ")." ++ mname)
      = recv ++ "." ++ mname := by
  constructor
  · apply String.ext
    show removeFirst ')' (removeFirst '*' (removeFirst '('
      (dropThroughFirst '.' (dropThroughLastSlash
        (path ++ "/" ++ pkg ++ "." ++ fname).data)))) = fname.data
    have hd : (path ++ "/" ++ pkg ++ "." ++ fname).data
        = path.data ++ '/' :: (pkg.data ++ '.' :: fname.data) := by
      simp [String.data_append]
    rw [hd, dropThroughLastSlash_append _ _ ?hns, dropThroughFirst_append _ _ _ hpkg_dot,
      removeFirst_of_not_mem _ _ hf_lp, removeFirst_of_not_mem _ _ hf_star,
      removeFirst_of_not_mem _ _ hf_rp]
    case hns =>
      intro hc
      rcases List.mem_append.mp hc with h1 | h1
      · exact hpkg_slash h1
      · rcases List.mem_cons.mp h1 with h2 | h2
        · exact absurd h2 (by decide)
        · exact hf_slash h2
  · apply String.ext
    show removeFirst ')' (removeFirst '*' (removeFirst '('
      (dropThroughFirst '.' (dropThroughLastSlash
        (path ++ "/" ++ pkg ++ ".(*" ++ recv ++ ")." ++ mname).data))))
      = (recv ++ "." ++ mname).data
    have hd : (path ++ "/" ++ pkg ++ ".(*" ++ recv ++ ")." ++ mname).data
        = path.data ++ '/' :: (pkg.data ++ '.' :: ('(' :: '*' :: recv.data ++ ')' :: '.' :: mname.data)) := by
      simp [String.data_append]
    rw [hd, dropThroughLastSlash_append _ _ ?hns2, dropThroughFirst_append _ _ _ hpkg_dot,
      show removeFirst '(' ('(' :: '*' :: recv.data ++ ')' :: '.' :: mname.data)
          = '*' :: recv.data ++ ')' :: '.' :: mname.data from removeFirst_cons_self _ _,
      show removeFirst '*' ('*' :: recv.data ++ ')' :: '.' :: mname.data)
          = recv.data ++ ')' :: '.' :: mname.data from removeFirst_cons_self _ _,
      removeFirst_append_of_not_mem _ _ _ hr_rp]
    · simp [String.data_append]
    case hns2 =>
      intro hc
      rcases List.mem_append.mp hc with h1 | h1
      · exact hpkg_slash h1
      · rcases List.mem_cons.mp h1 with h2 | h2
        · exact absurd h2 (by decide)
        · rcases List.mem_cons.mp h2 with h3 | h3
          · exact absurd h3 (by decide)
          · rcases List.mem_cons.mp h3 with h4 | h4
            · exact absurd h4 (by decide)
            · rcases List.mem_append.mp h4 with h5 | h5
              · exact hr_slash h5
              · rcases List.mem_cons.mp h5 with h6 | h6
                · exact absurd h6 (by decide)
                · rcases List.mem_cons.mp h6 with h7 | h7
                  · exact absurd h7 (by decide)
                  · exact hm_slash h7

/-- Witness for C9 at the three documented qualified-name shapes. -/
theorem simplifyFuncName_spec_witness :
    simplifyFuncName "github.com/pkg/package.FuncName" = "FuncName" ∧
    simplifyFuncName "github.com/pkg/package.Receiver.MethodName"
      = "Receiver.MethodName" ∧
    simplifyFuncName "github.com/pkg/package.(*PtrReceiver).MethodName"
      = "PtrReceiver.MethodName" := by
  refine ⟨?_, ?_, ?_⟩
  · have h := (simplifyFuncName_spec "github.com/pkg" "package" "FuncName" "R" "M"
      (by decide) (by decide) (by decide) (by decide) (by decide) (by decide)
      (by decide) (by decide) (by decide)).1
    have e : ("github.com/pkg" ++ "/" ++ "package" ++ "." ++ "FuncName" : String)
        = "github.com/pkg/package.FuncName" := by decide
    rw [e] at h
    exact h
  · have h := (simplifyFuncName_spec "github.com/pkg" "package" "Receiver.MethodName"
      "R" "M" (by decide) (by decide) (by decide) (by decide) (by decide) (by decide)
      (by decide) (by decide) (by decide)).1
    have e : ("github.com/pkg" ++ "/" ++ "package" ++ "." ++ "Receiver.MethodName" : String)
        = "github.com/pkg/package.Receiver.MethodName" := by decide
    rw [e] at h
    exact h
  · have h := (simplifyFuncName_spec "github.com/pkg" "package" "F" "PtrReceiver"
      "MethodName" (by decide) (by decide) (by decide) (by decide) (by decide)
      (by decide) (by decide) (by decide) (by decide)).2
    have e : ("github.com/pkg" ++ "/" ++ "package" ++ ".(*" ++ "PtrReceiver" ++ ")."
          ++ "MethodName" : String)
        = "github.com/pkg/package.(*PtrReceiver).MethodName" := by decide
    have e2 : ("PtrReceiver" ++ "." ++ "MethodName" : String)
        = "PtrReceiver.MethodName" := by decide
    rw [e, e2] at h
    exact h

/-! ## formatShort -/

def shortConcat (s msg : String) : String :=
  (if s ≠ "" ∧ msg ≠ "" then s ++ ": " else s) ++ msg

def shortGo : String → GoErr → String
  | s, .lib _ m c _ _ _ =>
      match c with
      | .lib _ _ _ _ _ _ => shortGo (shortConcat s m) c
      | .nilErr => shortConcat s m
      | .foreign _ _ t _ => shortConcat (shortConcat s m) t
  | s, _ => s

def formatShort (e : GoErr) : String := shortGo "" e

def libMessages : GoErr → List String
  | .lib _ m c _ _ _ =>
      m :: (match c with
            | .lib _ _ _ _ _ _ => libMessages c
            | _ => [])
  | _ => []

def foreignCauseText : GoErr → List String
  | .lib _ _ c _ _ _ =>
      match c with
      | .lib _ _ _ _ _ _ => foreignCauseText c
      | .foreign _ _ t _ => [t]
      | .nilErr => []
  | _ => []

def joinColon : List String → String
  | [] => ""
  | [m] => m
  | m :: rest => m ++ ": " ++ joinColon rest

def shortSpec (e : GoErr) : String :=
  joinColon ((libMessages e ++ foreignCauseText e).filter (fun m => m ≠ ""))

theorem append_ne_empty_left (a b : String) (h : a ≠ "") : a ++ b ≠ "" := by
  intro hc
  apply h
  apply String.ext
  have := congrArg String.data hc
  rw [String.data_append] at this
  have : a.data = [] := (List.append_eq_nil.mp this).1
  simpa using this

theorem shortConcat_empty_right (s : String) : shortConcat s "" = s := by
  simp [shortConcat]

theorem shortConcat_empty_left (m : String) : shortConcat "" m = m := by
  by_cases hm : m = ""
  · simp [shortConcat, hm]
  · simp [shortConcat]

theorem shortConcat_ne (s m : String) (hm : m ≠ "") : shortConcat s m ≠ "" := by
  unfold shortConcat
  by_cases hs : s = ""
  · simp [hs, hm]
  · intro hc
    apply hm
    apply String.ext
    have := congrArg String.data hc
    rw [String.data_append] at this
    simpa using (List.append_eq_nil.mp this).2

theorem joinColon_ne (b : String) (bs : List String) (hb : b ≠ "") :
    joinColon (b :: bs) ≠ "" := by
  cases bs with
  | nil => simpa [joinColon] using hb
  | cons c cs =>
      show b ++ ": " ++ joinColon (c :: cs) ≠ ""
      exact append_ne_empty_left _ _ (append_ne_empty_left _ _ hb)

theorem shortConcat_shortConcat (s a j : String) (ha : a ≠ "") (hj : j ≠ "") :
    shortConcat (shortConcat s a) j = shortConcat s (a ++ ": " ++ j) := by
  have haj : a ++ ": " ++ j ≠ "" := append_ne_empty_left _ _ (append_ne_empty_left _ _ ha)
  by_cases hs : s = ""
  · subst hs
    rw [shortConcat_empty_left, shortConcat_empty_left]
    simp [shortConcat, ha, hj]
  · have h1 : shortConcat s a = s ++ ": " ++ a := by simp [shortConcat, hs, ha]
    rw [h1]
    have h2 : s ++ ": " ++ a ≠ "" := append_ne_empty_left _ _ (append_ne_empty_left _ _ hs)
    simp only [shortConcat, h2, hj, haj, hs, ne_eq, not_false_iff, true_and, if_true]
    simp [String.append_assoc]

theorem foldl_shortConcat (l : List String) :
    ∀ s, l.foldl shortConcat s = shortConcat s (joinColon (l.filter (fun m => m ≠ ""))) := by
  induction l with
  | nil => intro s; simp [joinColon, shortConcat_empty_right]
  | cons a rest ih =>
      intro s
      by_cases ha : a = ""
      · subst ha
        simp only [List.foldl_cons, shortConcat_empty_right]
        rw [ih s]
        have hflt : List.filter (fun m => decide (m ≠ "")) ("" :: rest)
            = List.filter (fun m => decide (m ≠ "")) rest := by simp
        rw [hflt]
      · have hfa : (a :: rest).filter (fun m => m ≠ "") = a :: rest.filter (fun m => m ≠ "") := by
          simp [List.filter_cons, ha]
        rw [List.foldl_cons, ih (shortConcat s a), hfa]
        cases hrf : rest.filter (fun m => m ≠ "") with
        | nil => simp [joinColon, shortConcat_empty_right]
        | cons b bs =>
            have hb : b ≠ "" := by
              have : b ∈ rest.filter (fun m => m ≠ "") := by rw [hrf]; exact List.mem_cons_self b bs
              simpa using (List.mem_filter.mp this).2
            have hj : joinColon (b :: bs) ≠ "" := joinColon_ne b bs hb
            rw [show joinColon (a :: b :: bs) = a ++ ": " ++ joinColon (b :: bs) from rfl]
            exact shortConcat_shortConcat s a _ ha hj

theorem shortGo_eq_foldl : ∀ (e : GoErr) (s : String),
    shortGo s e = (libMessages e ++ foreignCauseText e).foldl shortConcat s := by
  intro e
  induction e with
  | nilErr => intro s; simp [shortGo, libMessages, foreignCauseText]
  | foreign id ty t u ihu => intro s; simp [shortGo, libMessages, foreignCauseText]
  | lib id m c f fn l ihc =>
      intro s
      cases c with
      | nilErr => simp [shortGo, libMessages, foreignCauseText]
      | foreign id2 ty2 t2 u2 => simp [shortGo, libMessages, foreignCauseText]
      | lib id2 m2 c2 f2 fn2 l2 =>
          simp only [shortGo, libMessages, foreignCauseText, List.cons_append, List.foldl_cons]
          exact ihc (shortConcat s m)

theorem formatShort_eq_shortSpec (e : GoErr) : formatShort e = shortSpec e := by
  rw [formatShort, shortGo_eq_foldl, foldl_shortConcat, shortConcat_empty_left, shortSpec]

/-! ## Claim C6 (short rendering) -/

/-- C6: the short rendering of any chain is the colon-join of the
non-empty link messages (outermost first) with the foreign cause's
rendered text appended — `shortSpec` is that spec-side description — and
the 3-link example chain renders to the expected single line. -/
theorem formatShort_spec :
    (∀ e : GoErr, formatShort e = shortSpec e) ∧
    formatShort (Propagate 2 [] none (Propagate 1 [] none
        (New 0 [] none "could not connect to database")
        "could not create repository") "could not create service")
      = "could not create service: could not create repository: could not connect to database" := by
  constructor
  · exact formatShort_eq_shortSpec
  · decide

/-! ## formatFull -/

def endsWithNewline (s : String) : Bool := s.data.getLast? == some '\n'

def newlineFn (s : String) : String :=
  if s ≠ "" ∧ endsWithNewline s = false then s ++ "\n" else s

def linkText (s m f fn : String) (l : Nat) : String :=
  if f ≠ "" then
    newlineFn (s ++ m) ++
      (if fn = "" then " --- at " ++ f ++ ":" ++ toString l ++ " ---"
       else " --- at " ++ f ++ ":" ++ toString l ++ " (" ++ fn ++ ") ---")
  else s ++ m

def fullGo : String → GoErr → String
  | s, .lib _ m c f fn l =>
      match c with
      | .nilErr => linkText s m f fn l
      | .foreign _ _ t _ => newlineFn (linkText s m f fn l) ++ "Caused by: " ++ t
      | .lib _ m2 _ _ _ _ =>
          fullGo (if m2 ≠ "" then newlineFn (linkText s m f fn l) ++ "Caused by: "
                  else newlineFn (linkText s m f fn l)) c
  | s, _ => s

def formatFull (e : GoErr) : String := fullGo "" e

theorem append_ne_empty_right (a b : String) (h : b ≠ "") : a ++ b ≠ "" := by
  intro hc
  apply h
  apply String.ext
  have := congrArg String.data hc
  rw [String.data_append] at this
  simpa using (List.append_eq_nil.mp this).2

theorem endsWithNewline_append (a b : String) (hb : b ≠ "") :
    endsWithNewline (a ++ b) = endsWithNewline b := by
  unfold endsWithNewline
  rw [String.data_append, List.getLast?_append]
  cases h : b.data.getLast? with
  | none =>
      exfalso
      apply hb
      apply String.ext
      simpa using List.getLast?_eq_none_iff.mp h
  | some x => simp

theorem newlineFn_eq (s : String) (h1 : s ≠ "") (h2 : endsWithNewline s = false) :
    newlineFn s = s ++ "\n" := by
  simp [newlineFn, h1, h2]

theorem newlineFn_msg (s m : String) (hm : m ≠ "") (he : endsWithNewline m = false) :
    newlineFn (s ++ m) = (s ++ m) ++ "\n" := by
  apply newlineFn_eq
  · exact append_ne_empty_right _ _ hm
  · rw [endsWithNewline_append _ _ hm]
    exact he

theorem newlineFn_after_atline (z w : String) :
    newlineFn (z ++ (w ++ ") ---")) = z ++ (w ++ ") ---") ++ "\n" := by
  apply newlineFn_eq
  · exact append_ne_empty_right _ _ (append_ne_empty_right _ _ (by decide))
  · rw [endsWithNewline_append _ _ (append_ne_empty_right _ _ (by decide)),
      endsWithNewline_append _ _ (by decide)]
    decide

theorem fullGo_threeRecord (i1 i2 i3 l1 l2 l3 : Nat) (F1 F2 F3 G1 G2 G3 : String)
    (hf1 : F1 ≠ "") (hf2 : F2 ≠ "") (hf3 : F3 ≠ "")
    (hg1 : G1 ≠ "") (hg2 : G2 ≠ "") (hg3 : G3 ≠ "") :
    formatFull (GoErr.lib i3 "could not create service"
      (GoErr.lib i2 "could not create repository"
        (GoErr.lib i1 "could not connect to database" GoErr.nilErr F1 G1 l1)
        F2 G2 l2) F3 G3 l3)
    = "could not create service\n --- at " ++ F3 ++ ":" ++ toString l3
      ++ " (" ++ G3 ++ ") ---\nCaused by: could not create repository\n --- at "
      ++ F2 ++ ":" ++ toString l2 ++ " (" ++ G2
      ++ ") ---\nCaused by: could not connect to database\n --- at "
      ++ F1 ++ ":" ++ toString l1 ++ " (" ++ G1 ++ ") ---" := by
  have e1 : linkText "" "could not create service" F3 G3 l3
      = ("" ++ "could not create service" ++ "\n")
        ++ (" --- at " ++ F3 ++ ":" ++ toString l3 ++ " (" ++ G3 ++ ") ---") := by
    unfold linkText
    rw [if_pos hf3, if_neg hg3, newlineFn_msg _ _ (by decide) (by decide)]
  have step1 : formatFull (GoErr.lib i3 "could not create service"
      (GoErr.lib i2 "could not create repository"
        (GoErr.lib i1 "could not connect to database" GoErr.nilErr F1 G1 l1)
        F2 G2 l2) F3 G3 l3)
      = fullGo (newlineFn (linkText "" "could not create service" F3 G3 l3)
          ++ "Caused by: ")
        (GoErr.lib i2 "could not create repository"
          (GoErr.lib i1 "could not connect to database" GoErr.nilErr F1 G1 l1)
          F2 G2 l2) := by
    rw [formatFull]
    rw [show fullGo "" (GoErr.lib i3 "could not create service"
        (GoErr.lib i2 "could not create repository"
          (GoErr.lib i1 "could not connect to database" GoErr.nilErr F1 G1 l1)
          F2 G2 l2) F3 G3 l3)
      = fullGo (if "could not create repository" ≠ "" then
            newlineFn (linkText "" "could not create service" F3 G3 l3) ++ "Caused by: "
          else newlineFn (linkText "" "could not create service" F3 G3 l3))
        (GoErr.lib i2 "could not create repository"
          (GoErr.lib i1 "could not connect to database" GoErr.nilErr F1 G1 l1)
          F2 G2 l2) from rfl]
    rw [if_pos (by decide : ("could not create repository" : String) ≠ "")]
  rw [step1, e1, newlineFn_after_atline]
  have step2 : ∀ s2 : String, fullGo s2
        (GoErr.lib i2 "could not create repository"
          (GoErr.lib i1 "could not connect to database" GoErr.nilErr F1 G1 l1)
          F2 G2 l2)
      = fullGo (newlineFn (linkText s2 "could not create repository" F2 G2 l2)
          ++ "Caused by: ")
        (GoErr.lib i1 "could not connect to database" GoErr.nilErr F1 G1 l1) := by
    intro s2
    rw [show fullGo s2 (GoErr.lib i2 "could not create repository"
          (GoErr.lib i1 "could not connect to database" GoErr.nilErr F1 G1 l1)
          F2 G2 l2)
        = fullGo (if "could not connect to database" ≠ "" then
              newlineFn (linkText s2 "could not create repository" F2 G2 l2) ++ "Caused by: "
            else newlineFn (linkText s2 "could not create repository" F2 G2 l2))
          (GoErr.lib i1 "could not connect to database" GoErr.nilErr F1 G1 l1) from rfl]
    rw [if_pos (by decide : ("could not connect to database" : String) ≠ "")]
  rw [step2]
  have e2 : ∀ s2 : String, linkText s2 "could not create repository" F2 G2 l2
      = (s2 ++ "could not create repository" ++ "\n")
        ++ (" --- at " ++ F2 ++ ":" ++ toString l2 ++ " (" ++ G2 ++ ") ---") := by
    intro s2
    unfold linkText
    rw [if_pos hf2, if_neg hg2, newlineFn_msg _ _ (by decide) (by decide)]
  rw [e2, newlineFn_after_atline]
  have step3 : ∀ s4 : String, fullGo s4
        (GoErr.lib i1 "could not connect to database" GoErr.nilErr F1 G1 l1)
      = linkText s4 "could not connect to database" F1 G1 l1 := by
    intro s4
    rfl
  rw [step3]
  have e3 : ∀ s4 : String, linkText s4 "could not connect to database" F1 G1 l1
      = (s4 ++ "could not connect to database" ++ "\n")
        ++ (" --- at " ++ F1 ++ ":" ++ toString l1 ++ " (" ++ G1 ++ ") ---") := by
    intro s4
    unfold linkText
    rw [if_pos hf1, if_neg hg1, newlineFn_msg _ _ (by decide) (by decide)]
  rw [e3]
  have d1 : ("could not create service\n --- at " : String)
      = "could not create service" ++ "\n" ++ " --- at " := by decide
  have d2 : (") ---\nCaused by: could not create repository\n --- at " : String)
      = ") ---" ++ "\n" ++ "Caused by: " ++ "could not create repository" ++ "\n" ++ " --- at " := by decide
  have d3 : (") ---\nCaused by: could not connect to database\n --- at " : String)
      = ") ---" ++ "\n" ++ "Caused by: " ++ "could not connect to database" ++ "\n" ++ " --- at " := by decide
  rw [d1, d2, d3]
  simp only [String.append_assoc, String.empty_append]

/-! ## Claim C2 (full rendering of the 3-link chain) -/

/-- C2: the chain `New("could not connect to database")` wrapped by
`Propagate` as `"could not create repository"` then as
`"could not create service"`, each link with a captured frame, renders in
full format as exactly six newline-joined lines — message, at-line,
`Caused by:` message, at-line, `Caused by:` message, at-line — with each
link's captured origin (file after `StripPath`, line, simplified
function) substituted and no trailing newline; and when the links' origins
are absent (frame capture failed) the at-lines are omitted. -/
theorem formatFull_three_links (dirs : List String) (i1 i2 i3 : Nat)
    (p1 p2 p3 g1 g2 g3 : String) (l1 l2 l3 : Nat)
    (hf1 : stripPath dirs p1 ≠ "") (hf2 : stripPath dirs p2 ≠ "")
    (hf3 : stripPath dirs p3 ≠ "")
    (hg1 : simplifyFuncName g1 ≠ "") (hg2 : simplifyFuncName g2 ≠ "")
    (hg3 : simplifyFuncName g3 ≠ "") :
    formatFull (Propagate i3 dirs (some ⟨p3, l3, some g3⟩)
      (Propagate i2 dirs (some ⟨p2, l2, some g2⟩)
        (New i1 dirs (some ⟨p1, l1, some g1⟩) "could not connect to database")
        "could not create repository")
      "could not create service")
      = "could not create service\n --- at " ++ stripPath dirs p3 ++ ":"
        ++ toString l3 ++ " (" ++ simplifyFuncName g3
        ++ ") ---\nCaused by: could not create repository\n --- at "
        ++ stripPath dirs p2 ++ ":" ++ toString l2 ++ " (" ++ simplifyFuncName g2
        ++ ") ---\nCaused by: could not connect to database\n --- at "
        ++ stripPath dirs p1 ++ ":" ++ toString l1 ++ " (" ++ simplifyFuncName g1
        ++ ") ---" ∧
    formatFull (Propagate 2 [] none (Propagate 1 [] none
        (New 0 [] none "could not connect to database")
        "could not create repository") "could not create service")
      = "could not create service\nCaused by: could not create repository\nCaused by: could not connect to database" := by
  constructor
  · have h1 : New i1 dirs (some ⟨p1, l1, some g1⟩) "could not connect to database"
        = GoErr.lib i1 "could not connect to database" GoErr.nilErr
            (stripPath dirs p1) (simplifyFuncName g1) l1 := rfl
    rw [h1]
    have h2 : Propagate i2 dirs (some ⟨p2, l2, some g2⟩)
          (GoErr.lib i1 "could not connect to database" GoErr.nilErr
            (stripPath dirs p1) (simplifyFuncName g1) l1)
          "could not create repository"
        = GoErr.lib i2 "could not create repository"
            (GoErr.lib i1 "could not connect to database" GoErr.nilErr
              (stripPath dirs p1) (simplifyFuncName g1) l1)
            (stripPath dirs p2) (simplifyFuncName g2) l2 := rfl
    rw [h2]
    have h3 : Propagate i3 dirs (some ⟨p3, l3, some g3⟩)
          (GoErr.lib i2 "could not create repository"
            (GoErr.lib i1 "could not connect to database" GoErr.nilErr
              (stripPath dirs p1) (simplifyFuncName g1) l1)
            (stripPath dirs p2) (simplifyFuncName g2) l2)
          "could not create service"
        = GoErr.lib i3 "could not create service"
            (GoErr.lib i2 "could not create repository"
              (GoErr.lib i1 "could not connect to database" GoErr.nilErr
                (stripPath dirs p1) (simplifyFuncName g1) l1)
              (stripPath dirs p2) (simplifyFuncName g2) l2)
            (stripPath dirs p3) (simplifyFuncName g3) l3 := rfl
    rw [h3]
    exact fullGo_threeRecord i1 i2 i3 l1 l2 l3 _ _ _ _ _ _ hf1 hf2 hf3 hg1 hg2 hg3
  · decide

set_option maxRecDepth 8192 in
/-- Witness for C2 at concrete frames. -/
theorem formatFull_three_links_witness :
    formatFull (Propagate 2 [] (some ⟨"c.go", 3, some "C"⟩)
      (Propagate 1 [] (some ⟨"b.go", 2, some "B"⟩)
        (New 0 [] (some ⟨"a.go", 1, some "A"⟩) "could not connect to database")
        "could not create repository")
      "could not create service")
      = "could not create service\n --- at c.go:3 (C) ---\nCaused by: could not create repository\n --- at b.go:2 (B) ---\nCaused by: could not connect to database\n --- at a.go:1 (A) ---" := by
  have h := (formatFull_three_links [] 0 1 2 "a.go" "b.go" "c.go" "A" "B" "C" 1 2 3
    (by decide) (by decide) (by decide) (by decide) (by decide) (by decide)).1
  rw [h]
  decide

/-! ## Claim C10 (empty-message link emits no Caused-by prefix) -/

/-- C10: for every link, every cause, and every already-accumulated
rendering `s`, the `Caused by: ` prefix is emitted by the full-format
loop exactly where the claim says: a cause that is a library record with
an empty message gets no prefix (the walk continues with only the
conditional newline appended — first conjunct), the prefix appears before
a library cause's non-empty message (second conjunct) and before a
foreign cause's rendered text (third conjunct), and a nil cause ends the
rendering with nothing further (fourth conjunct) — so the prefix appears
only in the second and third cases; the final conjunct shows the
resulting rendering of a chain whose middle link has an empty message:
no `Caused by:` line for it. -/
theorem formatFull_causedBy_rule (s m f fn : String) (l : Nat) :
    (∀ (id id2 : Nat) (c2 : GoErr) (f2 fn2 : String) (l2 : Nat),
      fullGo s (GoErr.lib id m (GoErr.lib id2 "" c2 f2 fn2 l2) f fn l)
        = fullGo (newlineFn (linkText s m f fn l))
            (GoErr.lib id2 "" c2 f2 fn2 l2)) ∧
    (∀ (id id2 : Nat) (m2 : String) (c2 : GoErr) (f2 fn2 : String) (l2 : Nat),
      m2 ≠ "" →
      fullGo s (GoErr.lib id m (GoErr.lib id2 m2 c2 f2 fn2 l2) f fn l)
        = fullGo (newlineFn (linkText s m f fn l) ++ "Caused by: ")
            (GoErr.lib id2 m2 c2 f2 fn2 l2)) ∧
    (∀ (id id2 ty2 : Nat) (t2 : String) (u2 : GoErr),
      fullGo s (GoErr.lib id m (GoErr.foreign id2 ty2 t2 u2) f fn l)
        = newlineFn (linkText s m f fn l) ++ "Caused by: " ++ t2) ∧
    (∀ id : Nat,
      fullGo s (GoErr.lib id m GoErr.nilErr f fn l) = linkText s m f fn l) ∧
    formatFull (GoErr.lib 3 "could not create service"
      (GoErr.lib 2 ""
        (GoErr.lib 1 "could not connect to database" GoErr.nilErr "a.go" "A" 1)
        "b.go" "B" 2) "c.go" "C" 3)
      = "could not create service\n --- at c.go:3 (C) ---\n --- at b.go:2 (B) ---\nCaused by: could not connect to database\n --- at a.go:1 (A) ---" := by
  refine ⟨?_, ?_, ?_, ?_, by decide⟩
  · intro id id2 c2 f2 fn2 l2
    simp [fullGo]
  · intro id id2 m2 c2 f2 fn2 l2 hm2
    simp [fullGo, hm2]
  · intro id id2 ty2 t2 u2
    rfl
  · intro id
    rfl

/-- Witness for C10: the hypothesis-bearing conjunct applied at a
concrete non-empty cause message, next to the empty-message case at the
same link. -/
theorem formatFull_causedBy_rule_witness :
    fullGo "" (GoErr.lib 3 "svc"
        (GoErr.lib 2 "mid" GoErr.nilErr "b.go" "B" 2) "c.go" "C" 3)
      = fullGo (newlineFn (linkText "" "svc" "c.go" "C" 3) ++ "Caused by: ")
          (GoErr.lib 2 "mid" GoErr.nilErr "b.go" "B" 2) ∧
    fullGo "" (GoErr.lib 3 "svc"
        (GoErr.lib 2 "" GoErr.nilErr "b.go" "B" 2) "c.go" "C" 3)
      = fullGo (newlineFn (linkText "" "svc" "c.go" "C" 3))
          (GoErr.lib 2 "" GoErr.nilErr "b.go" "B" 2) :=
  ⟨(formatFull_causedBy_rule "" "svc" "c.go" "C" 3).2.1
      3 2 "mid" GoErr.nilErr "b.go" "B" 2 (by decide),
   (formatFull_causedBy_rule "" "svc" "c.go" "C" 3).1
      3 2 GoErr.nilErr "b.go" "B" 2⟩
